import Mathlib

/-!
Shallow embedding of the Octo-Tune PostgreSQL tuning harness
(src/performance-test-suite.py, src/postgresql_tuner.py, src/analyze-results.py)
and proofs about its specified behaviour.

Real time, thread scheduling and the live PostgreSQL / SQLite connections are
modelled by explicit parameters: a query's wall-clock duration and whether it
raises are packaged in `QueryBehavior`; the completion order of the concurrent
sub-batch is an explicit index list; the server's reaction to a SET command is
a function from requested to actually-adopted value.  Everything else is a
direct transcription of the Python control flow.
-/

namespace OctoTune

/-- Behaviour of one query execution on the service: the wall-clock time (in
seconds, modelled as a rational) until the `execute` + `fetchall` call
finishes, and whether it finishes by raising an execution-level error. -/
structure QueryBehavior where
  duration : ℚ
  errors : Bool
deriving DecidableEq

/-- Outcome of `run_with_timeout` as seen by its caller: the join timed out
(`TimeoutException` raised), the worker function raised (its exception is
re-raised), or the worker's result is returned. -/
inductive RunResult where
  | timeoutExc
  | raised
  | completed
deriving DecidableEq

/-- Embedding of `run_with_timeout` (performance-test-suite.py lines 10-33):
the worker thread is joined for `timeout_duration` seconds; if it is still
alive a `TimeoutException` is raised; otherwise a stored worker exception is
re-raised, else the worker's result is returned.  The thread is still alive
at the join exactly when the execution's duration exceeds the timeout. -/
def run_with_timeout (b : QueryBehavior) (timeout_duration : ℚ) : RunResult :=
  if timeout_duration < b.duration then RunResult.timeoutExc
  else if b.errors then RunResult.raised
  else RunResult.completed

/-- Embedding of `PerformanceTestSuite.run_query` (lines 78-96): on
`TimeoutException` the timeout value itself is returned as the sample, on any
other exception the sentinel -1 is returned, otherwise the measured elapsed
time (the duration of the execution).  The function is total: no exception
propagates to the caller. -/
def run_query (b : QueryBehavior) (timeout : ℚ) : ℚ :=
  match run_with_timeout b timeout with
  | RunResult.timeoutExc => timeout
  | RunResult.raised => -1
  | RunResult.completed => b.duration

/-- The fixed workload of `PerformanceTestSuite.run_test_suite`
(lines 99-114), as (label, query text) pairs in declaration order. -/
def tests : List (String × String) :=
  [("简单 SELECT", "SELECT * FROM users LIMIT 10000;"),
   ("JOIN 操作",
    "SELECT orders.*, users.name FROM orders JOIN users ON orders.user_id = users.id LIMIT 10000;"),
   ("聚合操作", "SELECT user_id, COUNT(*), AVG(total_amount) FROM orders GROUP BY user_id;"),
   ("复杂查询",
    "SELECT u.name, COUNT(o.id) as order_count, AVG(o.total_amount) as avg_order_amount FROM users u LEFT JOIN orders o ON u.id = o.user_id WHERE u.created_at > '2023-01-01' GROUP BY u.id HAVING COUNT(o.id) > 0 ORDER BY avg_order_amount DESC LIMIT 1000;")]

/-- Embedding of `PerformanceTestSuite.run_test_suite` (lines 98-122): each
workload query is run sequentially through `run_query` with the default
30-second timeout; the insertion-ordered result dict is modelled as an
association list.  `env` maps a query text to its execution behaviour. -/
def run_test_suite (env : String → QueryBehavior) : List (String × ℚ) :=
  tests.map (fun t => (t.1, run_query (env t.2) 30))

/-- The heavier analytic query of `EnhancedTestSuite.run_complex_query`
(lines 139-162). -/
def complexQuery : String :=
  "WITH ranked_orders AS (SELECT user_id, total_amount, created_at, ROW_NUMBER() OVER (PARTITION BY user_id ORDER BY total_amount DESC) as rank FROM orders) SELECT u.id, u.name, COUNT(ro.user_id) as total_orders, AVG(ro.total_amount) as avg_order_amount, MAX(CASE WHEN ro.rank = 1 THEN ro.total_amount END) as highest_order_amount FROM users u LEFT JOIN ranked_orders ro ON u.id = ro.user_id GROUP BY u.id, u.name HAVING COUNT(ro.user_id) > 5 ORDER BY avg_order_amount DESC LIMIT 100;"

/-- Embedding of `EnhancedTestSuite.run_complex_query`. -/
def run_complex_query (env : String → QueryBehavior) : ℚ :=
  run_query (env complexQuery) 30

/-- The five ad-hoc queries of `EnhancedTestSuite.run_concurrent_queries`
(lines 165-171), in submission order. -/
def queries : List String :=
  ["SELECT AVG(total_amount) FROM orders;",
   "SELECT COUNT(*) FROM users WHERE created_at > CURRENT_DATE - INTERVAL '30 days';",
   "SELECT user_id, SUM(total_amount) FROM orders GROUP BY user_id ORDER BY SUM(total_amount) DESC LIMIT 10;",
   "SELECT * FROM users ORDER BY RANDOM() LIMIT 100;",
   "SELECT DATE(created_at), COUNT(*) FROM orders GROUP BY DATE(created_at) ORDER BY DATE(created_at);"]

/-- Embedding of `EnhancedTestSuite.run_concurrent_queries` (lines 164-182):
the five queries are submitted to a pool in list order, but the result list is
built with `for future in as_completed(futures)`, i.e. in COMPLETION order.
`order` is the completion order (indices into `queries`, first completer
first), determined by the scheduler at run time; `span` is the wall-clock time
from dispatch to last completion, likewise determined at run time.  Returns
(aggregate span, individual samples in completion order). -/
def run_concurrent_queries (env : String → QueryBehavior) (span : ℚ)
    (order : List ℕ) : ℚ × List ℚ :=
  (span, order.map (fun i => run_query (env (queries.getD i "")) 30))

/-- Embedding of `EnhancedTestSuite.run_enhanced_test_suite` (lines 184-201):
the base suite results, then the complex-query sample, then the concurrent
aggregate span under the label 并发查询, then the individual concurrent
samples labelled 并发查询 1 .. 并发查询 5 by position in the
completion-ordered result list. -/
def run_enhanced_test_suite (env : String → QueryBehavior) (span : ℚ)
    (order : List ℕ) : List (String × ℚ) :=
  run_test_suite env
    ++ [("增强复杂查询", run_complex_query env),
        ("并发查询", (run_concurrent_queries env span order).1)]
    ++ ((run_concurrent_queries env span order).2.enum.map
         (fun p => ("并发查询 " ++ toString (p.1 + 1), p.2)))

/-- One row of the `performance_tests` SQLite table
(postgresql_tuner.py lines 78-93).  `α` and `β` are the Python runtime types
of the values handed to `save_results` for the TEXT columns `work_mem` and
`effective_cache_size`: strings in grid mode, raw floats in optimizer mode. -/
structure Row (α β : Type) where
  work_mem : α
  effective_cache_size : β
  random_page_cost : ℚ
  execution_time : ℚ
  test_name : String
deriving DecidableEq

/-- Embedding of `PerformanceTestSuite.save_results` (lines 124-136): one row
is inserted per (test_name, execution_time) entry of the results dict, in
insertion order, each carrying the parameter values the caller passed.  The
`float(random_page_cost)` coercion is modelled at the call boundary: `rpc` is
already the rational the caller's value denotes. -/
def save_results {α β : Type} (results : List (String × ℚ)) (work_mem : α)
    (effective_cache_size : β) (rpc : ℚ) : List (Row α β) :=
  results.map (fun p => ⟨work_mem, effective_cache_size, rpc, p.2, p.1⟩)

/-- Events printed by `PostgreSQLTuner.set_parameter_value`
(postgresql_tuner.py lines 47-76), in print order. -/
inductive LogEvent where
  | paramSet (name value : String)
  | verifyOk (name actual : String)
  | warnFloat (name : String)
  | warnExact (name : String)
  | sqlError (name : String)
deriving DecidableEq

/-- The live PostgreSQL connection as seen by one `set_parameter_value` call:
`setRes name value` is the outcome of `SET name = value` (an error models a
psycopg2 connection/privilege failure), and `showRes name value` is the
outcome of the subsequent `SHOW name`, returning the value actually active
after that SET. -/
structure PgServer where
  setRes : String → String → Except String Unit
  showRes : String → String → Except String String

/-- The parameters compared as floating point in `set_parameter_value`
(line 60). -/
def floatParams : List String :=
  ["random_page_cost", "cpu_tuple_cost", "cpu_index_tuple_cost"]

/-- Caller-visible outcome of one `set_parameter_value` call: `raised` is the
exception propagating out of the call, if any (the Python function returns
`None` on every non-raising path, so the only way an error could reach the
caller is by raising), and `log` is what was printed. -/
structure ApplyResult where
  raised : Option String
  log : List LogEvent
deriving DecidableEq

/-- Embedding of `PostgreSQLTuner.set_parameter_value` (lines 47-76).
A psycopg2 error from the SET or the SHOW is caught by the
`except psycopg2.Error` handler, printed and swallowed.  On a successful
read-back, parameters in `floatParams` are compared as floats with a strict
1e-6 tolerance (a failing `float(...)` parse is a ValueError, which the
psycopg2 handler does not catch, hence it propagates); all other parameters
are compared by string equality, a mismatch printing a warning.  `toFloat`
models Python `float()` on strings, `none` meaning ValueError. -/
def set_parameter_value (toFloat : String → Option ℚ) (server : PgServer)
    (parameter_name value : String) : ApplyResult :=
  match server.setRes parameter_name value with
  | Except.error _ => ⟨none, [LogEvent.sqlError parameter_name]⟩
  | Except.ok _ =>
    match server.showRes parameter_name value with
    | Except.error _ =>
      ⟨none, [LogEvent.paramSet parameter_name value, LogEvent.sqlError parameter_name]⟩
    | Except.ok actual_value =>
      if parameter_name ∈ floatParams then
        match toFloat value with
        | none => ⟨some "ValueError", [LogEvent.paramSet parameter_name value]⟩
        | some set_value =>
          match toFloat actual_value with
          | none => ⟨some "ValueError", [LogEvent.paramSet parameter_name value]⟩
          | some actual_float =>
            if |actual_float - set_value| < 1 / 1000000 then
              ⟨none, [LogEvent.paramSet parameter_name value,
                      LogEvent.verifyOk parameter_name actual_value]⟩
            else
              ⟨none, [LogEvent.paramSet parameter_name value,
                      LogEvent.warnFloat parameter_name]⟩
      else
        if actual_value = value then
          ⟨none, [LogEvent.paramSet parameter_name value]⟩
        else
          ⟨none, [LogEvent.paramSet parameter_name value,
                  LogEvent.warnExact parameter_name]⟩

/-- The three tunable parameters' state on the service, as canonical SHOW
strings. -/
structure PgState where
  work_mem : String
  effective_cache_size : String
  random_page_cost : String
deriving DecidableEq

/-- State effect of one successful `SET name = value`: the service adopts
`clamp name value` (the server may silently clamp or round the requested
value, as the code's own warning message at lines 71-72 notes); parameters
other than the three tracked ones leave the tracked state unchanged. -/
def applyParam (clamp : String → String → String) (st : PgState)
    (name value : String) : PgState :=
  if name = "work_mem" then
    ⟨clamp name value, st.effective_cache_size, st.random_page_cost⟩
  else if name = "effective_cache_size" then
    ⟨st.work_mem, clamp name value, st.random_page_cost⟩
  else if name = "random_page_cost" then
    ⟨st.work_mem, st.effective_cache_size, clamp name value⟩
  else st

/-- Python `int()` on a real number: truncation toward zero. -/
def pyInt (q : ℚ) : ℤ :=
  if 0 ≤ q then ⌊q⌋ else ⌈q⌉

/-- The string the optimizer path sends for a memory-size parameter:
Python `f"{int(x)}MB"` (postgresql_tuner.py lines 109-110). -/
def mbString (q : ℚ) : String :=
  toString (pyInt q) ++ "MB"

/-- Removal of every occurrence of the substring MB from a character list
(the `str.replace('MB', '')` step of analyze-results.py line 50). -/
def stripMB : List Char → List Char
  | [] => []
  | 'M' :: 'B' :: rest => stripMB rest
  | c :: rest => c :: stripMB rest

/-- Value of one decimal digit character. -/
def charDigit (c : Char) : Option ℕ :=
  if '0' ≤ c ∧ c ≤ '9' then some (c.toNat - '0'.toNat) else none

/-- Decimal value of a non-empty digit string. -/
def natOfDigits (l : List Char) : Option ℕ :=
  if l.isEmpty then none
  else l.foldl (fun acc c => acc.bind (fun n => (charDigit c).map (fun d => 10 * n + d)))
    (some 0)

/-- Numeric reading of a stored memory-size string, as the repository's own
analysis script interprets it (analyze-results.py line 50:
`.str.replace('MB', '').astype(float)`), restricted to whole numbers. -/
def mbValue (s : String) : Option ℚ :=
  (natOfDigits (stripMB s.data)).map (fun n => (n : ℚ))

/-- The `parameter_values` dict handed to `run_multi_parameter_tests`
(performance-test-suite.py lines 203, 253-257): one list of candidate values
per parameter, the random_page_cost entries being float-denoting strings. -/
structure ParameterValues where
  work_mem : List String
  effective_cache_size : List String
  random_page_cost : List String

/-- Embedding of
`itertools.product(pv['work_mem'], pv['effective_cache_size'], pv['random_page_cost'])`
(lines 224-228): the full Cartesian product, enumerated lexicographically over
the input list order (work_mem outermost, random_page_cost innermost). -/
def combinations (pv : ParameterValues) : List (String × String × String) :=
  pv.work_mem.flatMap (fun w =>
    pv.effective_cache_size.flatMap (fun e =>
      pv.random_page_cost.map (fun r => (w, e, r))))

/-- Outcome of one grid round: the persisted rows on success, a `caught`
exception when `run_enhanced_test_suite` / `save_results` raised inside the
round's try (lines 240-244, printed and swallowed), or a `fatal` exception
raised outside that try (it unwinds to the outer handler of
`run_multi_parameter_tests` and ends the whole run). -/
inductive RoundOutcome (ρ : Type) where
  | ok (rows : ρ)
  | caught (e : String)
  | fatal (e : String)
deriving DecidableEq

/-- One grid-mode round (loop body, lines 230-244): the three parameters are
applied in order (`set_parameter_value` swallows psycopg2 errors, so the
applies never raise except for the ValueError that `float(value)` raises
while verifying `random_page_cost` when the value string does not parse —
that one escapes the round), then the enhanced suite runs and its results are
saved.  `persist` models the SQLite insert/commit, whose exception the
round's try catches.  Returns the post-apply service state and the round
outcome. -/
def grid_round (toFloat : String → Option ℚ) (clamp : String → String → String)
    (persist : List (Row String String) → Except String Unit)
    (env : PgState → String → QueryBehavior) (span : ℚ) (order : List ℕ)
    (st : PgState) (c : String × String × String) :
    PgState × RoundOutcome (List (Row String String)) :=
  let st1 := applyParam clamp st "work_mem" c.1
  let st2 := applyParam clamp st1 "effective_cache_size" c.2.1
  let st3 := applyParam clamp st2 "random_page_cost" c.2.2
  match toFloat c.2.2 with
  | none => (st3, RoundOutcome.fatal "ValueError")
  | some rpcq =>
    let results := run_enhanced_test_suite (env st3) span order
    let rows := save_results results c.1 c.2.1 rpcq
    match persist rows with
    | Except.error e => (st3, RoundOutcome.caught e)
    | Except.ok _ => (st3, RoundOutcome.ok rows)

/-- The grid-mode loop over a list of combinations (lines 230-244): each
combination gets a round; a `caught` outcome is printed and the loop
continues; a `fatal` outcome unwinds past the loop, so no later combination
is visited. -/
def grid_rounds (toFloat : String → Option ℚ) (clamp : String → String → String)
    (persist : List (Row String String) → Except String Unit)
    (env : PgState → String → QueryBehavior) (span : ℚ) (order : List ℕ) :
    PgState → List (String × String × String) →
    List ((String × String × String) × RoundOutcome (List (Row String String)))
  | _, [] => []
  | st, c :: cs =>
    let r := grid_round toFloat clamp persist env span order st c
    match r.2 with
    | RoundOutcome.fatal e => [(c, RoundOutcome.fatal e)]
    | o => (c, o) :: grid_rounds toFloat clamp persist env span order r.1 cs

/-- Embedding of the grid branch of `run_multi_parameter_tests`
(lines 222-244): enumerate the Cartesian product of the supplied value lists
once, then run one round per combination. -/
def run_multi_parameter_tests (toFloat : String → Option ℚ)
    (clamp : String → String → String)
    (persist : List (Row String String) → Except String Unit)
    (env : PgState → String → QueryBehavior) (span : ℚ) (order : List ℕ)
    (st0 : PgState) (pv : ParameterValues) :
    List ((String × String × String) × RoundOutcome (List (Row String String))) :=
  grid_rounds toFloat clamp persist env span order st0 (combinations pv)

/-- Embedding of `BayesianOptimizer.objective_function`
(postgresql_tuner.py lines 107-120): the candidate triple (work_mem MB,
effective_cache_size MB, random_page_cost) is applied — the memory sizes as
`f"{int(x)}MB"`, the cost as `str(x)` rendered by `ratStr` — then the
enhanced suite runs under the post-apply state and the results are saved with
the RAW candidate values; the returned objective is the sum of all values of
the results dict.  Returns (post-apply state, rows passed to the store,
objective value). -/
def objective_function (clamp : String → String → String)
    (ratStr : ℚ → String) (env : PgState → String → QueryBehavior)
    (span : ℚ) (order : List ℕ) (st : PgState) (params : ℚ × ℚ × ℚ) :
    PgState × List (Row ℚ ℚ) × ℚ :=
  let st1 := applyParam clamp st "work_mem" (mbString params.1)
  let st2 := applyParam clamp st1 "effective_cache_size" (mbString params.2.1)
  let st3 := applyParam clamp st2 "random_page_cost" (ratStr params.2.2)
  let results := run_enhanced_test_suite (env st3) span order
  let rows := save_results results params.1 params.2.1 params.2.2
  (st3, rows, (results.map Prod.snd).sum)

/-- The optimizer-mode round loop (`BayesianOptimizer.optimize` driving GPyOpt,
lines 122-128): the optimizer evaluates `objective_function` at a sequence of
candidate points (`cands` abstracts the acquisition policy's choices).
`objective_function` contains no exception handler, so a persistence failure
propagates out of the evaluation, aborts the optimization and unwinds to the
outer handler of `run_multi_parameter_tests`: later candidates are never
evaluated. -/
def bayes_run (clamp : String → String → String) (ratStr : ℚ → String)
    (persist : List (Row ℚ ℚ) → Except String Unit)
    (env : PgState → String → QueryBehavior) (span : ℚ) (order : List ℕ) :
    PgState → List (ℚ × ℚ × ℚ) →
    List ((ℚ × ℚ × ℚ) × Except String (List (Row ℚ ℚ) × ℚ))
  | _, [] => []
  | st, p :: ps =>
    match objective_function clamp ratStr env span order st p with
    | (st2, rows, v) =>
      match persist rows with
      | Except.error e => [(p, Except.error e)]
      | Except.ok _ =>
        (p, Except.ok (rows, v)) :: bayes_run clamp ratStr persist env span order st2 ps

/-! Concrete instances used by witnesses and counterexamples. -/

/-- An environment in which the aggregation query of the fixed workload
raises an execution error after 2 seconds and every other query succeeds in
1 second. -/
def envERR : String → QueryBehavior := fun s =>
  if s = "SELECT user_id, COUNT(*), AVG(total_amount) FROM orders GROUP BY user_id;" then
    ⟨2, true⟩
  else ⟨1, false⟩

/-- An environment giving each of the five concurrent queries a distinct
duration (index i runs for i + 1 seconds) and every other query 1 second. -/
def envC : String → QueryBehavior := fun s =>
  if s = queries.getD 0 "" then ⟨1, false⟩
  else if s = queries.getD 1 "" then ⟨2, false⟩
  else if s = queries.getD 2 "" then ⟨3, false⟩
  else if s = queries.getD 3 "" then ⟨4, false⟩
  else if s = queries.getD 4 "" then ⟨5, false⟩
  else ⟨1, false⟩

/-- An environment in which the first concurrent query raises an execution
error after 2 seconds and every other query succeeds in 1 second. -/
def envCQ0 : String → QueryBehavior := fun s =>
  if s = queries.getD 0 "" then ⟨2, true⟩ else ⟨1, false⟩

/-- A server that adopts every requested value exactly. -/
def clampExact : String → String → String := fun _ v => v

/-- A state-independent environment in which every query succeeds in
1 second. -/
def envConst : PgState → String → QueryBehavior := fun _ _ => ⟨1, false⟩

/-- A persistence layer that always succeeds. -/
def persistOk {ρ : Type} : ρ → Except String Unit := fun _ => Except.ok ()

/-- A persistence layer whose insert always raises. -/
def persistFail {ρ : Type} : ρ → Except String Unit :=
  fun _ => Except.error "sqlite3.OperationalError"

/-- A concrete `float()` model for the value strings used by the witnesses. -/
def tfW : String → Option ℚ := fun s =>
  if s = "2.0" then some 2 else if s = "3.0" then some 3 else none

/-- A concrete `str()` rendering for rationals, used only where the proved
statement does not depend on the rendering. -/
def ratStrW : ℚ → String := fun _ => "2.0"

/-- A healthy connection whose SHOW reads back exactly what was requested. -/
def serverEcho : PgServer :=
  ⟨fun _ _ => Except.ok (), fun _ v => Except.ok v⟩

/-- A connection on which every command fails (connection refused). -/
def serverDown : PgServer :=
  ⟨fun _ _ => Except.error "connection refused",
   fun _ _ => Except.error "connection refused"⟩

/-- A connection that accepts the SET but reads back a slightly different
value for random_page_cost (2.0000004 instead of 2.0) and clamps work_mem
requests to 4MB. -/
def serverNear : PgServer :=
  ⟨fun _ _ => Except.ok (),
   fun n v =>
     Except.ok (if n = "random_page_cost" then "2.0000004"
                else if n = "work_mem" then "4MB" else v)⟩

/-- Python float() on the two strings `serverNear` can produce for
random_page_cost. -/
def tfNear : String → Option ℚ := fun s =>
  if s = "2.0" then some 2
  else if s = "2.0000004" then some (2 + 4 / 10000000) else none

/-- The parameter grid of the module's `__main__` block
(performance-test-suite.py lines 253-257). -/
def pvMain : ParameterValues :=
  ⟨["4MB", "16MB", "64MB"], ["100MB", "200MB"], ["2.0", "3.0"]⟩

/-- An initial service state. -/
def stInit : PgState := ⟨"4MB", "4GB", "4.0"⟩

/-- The submission-order completion order. -/
def orderId : List ℕ := [0, 1, 2, 3, 4]

/-- A completion order in which the second query finishes first. -/
def orderSwap : List ℕ := [1, 0, 2, 3, 4]

/-! Helper lemmas shared between claim theorems. -/

theorem run_query_of_error {b : QueryBehavior} {t : ℚ} (herr : b.errors = true)
    (hdl : b.duration ≤ t) : run_query b t = -1 := by
  simp [run_query, run_with_timeout, not_lt.mpr hdl, herr]

theorem run_query_of_ok {b : QueryBehavior} {t : ℚ} (herr : b.errors = false)
    (hdl : b.duration ≤ t) : run_query b t = b.duration := by
  simp [run_query, run_with_timeout, not_lt.mpr hdl, herr]

theorem run_test_suite_labels (env : String → QueryBehavior) :
    (run_test_suite env).map Prod.fst = tests.map Prod.fst := rfl

theorem mem_run_test_suite {env : String → QueryBehavior} {l r : String}
    (hlr : (l, r) ∈ tests) : (l, run_query (env r) 30) ∈ run_test_suite env := by
  have h := List.mem_map_of_mem
    (fun t : String × String => (t.1, run_query (env t.2) 30)) hlr
  simpa [run_test_suite] using h

theorem enum_relabel_snd (l : List ℚ) :
    (l.enum.map (fun p => ("并发查询 " ++ toString (p.1 + 1), p.2))).map Prod.snd = l := by
  rw [List.map_map]
  exact List.enum_map_snd l

theorem enhanced_map_snd_sum (env : String → QueryBehavior) (span : ℚ)
    (order : List ℕ) :
    ((run_enhanced_test_suite env span order).map Prod.snd).sum =
      ((run_test_suite env).map Prod.snd).sum + run_complex_query env + span +
        ((run_concurrent_queries env span order).2).sum := by
  rw [run_enhanced_test_suite, List.map_append, List.map_append, List.sum_append,
    List.sum_append, enum_relabel_snd]
  simp [run_concurrent_queries]
  ring

theorem grid_round_not_fatal (toFloat : String → Option ℚ)
    (clamp : String → String → String)
    (persist : List (Row String String) → Except String Unit)
    (env : PgState → String → QueryBehavior) (span : ℚ) (order : List ℕ)
    (st : PgState) (c : String × String × String) {q : ℚ}
    (hq : toFloat c.2.2 = some q) :
    ∀ e, (grid_round toFloat clamp persist env span order st c).2 ≠
      RoundOutcome.fatal e := by
  intro e
  simp only [grid_round, hq]
  split <;> simp

theorem grid_rounds_cons (toFloat : String → Option ℚ)
    (clamp : String → String → String)
    (persist : List (Row String String) → Except String Unit)
    (env : PgState → String → QueryBehavior) (span : ℚ) (order : List ℕ)
    (st : PgState) (c : String × String × String)
    (cs : List (String × String × String)) {q : ℚ}
    (hq : toFloat c.2.2 = some q) :
    grid_rounds toFloat clamp persist env span order st (c :: cs) =
      (c, (grid_round toFloat clamp persist env span order st c).2) ::
        grid_rounds toFloat clamp persist env span order
          (grid_round toFloat clamp persist env span order st c).1 cs := by
  rw [grid_rounds]
  split
  · next e heq =>
    exact absurd heq (grid_round_not_fatal toFloat clamp persist env span order st c hq e)
  · rfl

theorem grid_rounds_map_fst (toFloat : String → Option ℚ)
    (clamp : String → String → String)
    (persist : List (Row String String) → Except String Unit)
    (env : PgState → String → QueryBehavior) (span : ℚ) (order : List ℕ)
    (cs : List (String × String × String)) :
    ∀ st : PgState, (∀ c ∈ cs, (toFloat c.2.2).isSome = true) →
      (grid_rounds toFloat clamp persist env span order st cs).map Prod.fst = cs := by
  induction cs with
  | nil => intro st _; rfl
  | cons c cs ih =>
    intro st h
    obtain ⟨q, hq⟩ := Option.isSome_iff_exists.mp (h c (List.mem_cons_self c cs))
    rw [grid_rounds_cons toFloat clamp persist env span order st c cs hq,
      List.map_cons,
      ih (grid_round toFloat clamp persist env span order st c).1
        (fun x hx => h x (List.mem_cons_of_mem c hx))]

/-! Claim theorems. -/

/-- C4: for every query whose execution has not finished when its deadline
elapses, `run_query` returns the deadline value itself as the recorded
sample, never the true (longer) elapsed time; `run_query` is a total Lean
function mirroring the Python handler that catches the `TimeoutException`,
so the call does not raise. -/
theorem runQuery_timeout_returns_deadline (b : QueryBehavior) (t : ℚ)
    (h : t < b.duration) :
    run_query b t = t ∧ run_query b t ≠ b.duration := by
  have hq : run_query b t = t := by
    simp [run_query, run_with_timeout, h]
  exact ⟨hq, by rw [hq]; exact ne_of_lt h⟩

/-- Witness for C4: a query that needs 2 seconds against a 1-second deadline
is recorded as a 1-second sample. -/
theorem runQuery_timeout_returns_deadline_witness :
    (1 : ℚ) < (QueryBehavior.mk 2 false).duration ∧
      (run_query ⟨2, false⟩ 1 = 1 ∧
        run_query ⟨2, false⟩ 1 ≠ (QueryBehavior.mk 2 false).duration) :=
  ⟨by decide, runQuery_timeout_returns_deadline ⟨2, false⟩ 1 (by decide)⟩

/-- C5: a workload query raising an execution-level error before the deadline
is recorded as the sentinel -1 (the exception is not propagated: `run_query`
is total), and the batch still completes with every label of the fixed
workload populated, each remaining label carrying its own query's sample. -/
theorem runTestSuite_error_sentinel (env : String → QueryBehavior)
    (label q : String) (hmem : (label, q) ∈ tests)
    (herr : (env q).errors = true) (hdl : (env q).duration ≤ 30) :
    (label, (-1 : ℚ)) ∈ run_test_suite env ∧
      (run_test_suite env).map Prod.fst = tests.map Prod.fst ∧
      ∀ l r : String, (l, r) ∈ tests → (l, run_query (env r) 30) ∈ run_test_suite env := by
  refine ⟨?_, run_test_suite_labels env, fun l r hlr => mem_run_test_suite hlr⟩
  have hval : run_query (env q) 30 = -1 := run_query_of_error herr hdl
  have h := @mem_run_test_suite env label q hmem
  rwa [hval] at h

/-- Witness for C5: in `envERR` the aggregation query errors after 2 seconds;
its label is recorded as -1 and all four labels are populated. -/
theorem runTestSuite_error_sentinel_witness :
    (("聚合操作",
        "SELECT user_id, COUNT(*), AVG(total_amount) FROM orders GROUP BY user_id;") ∈ tests ∧
      (envERR "SELECT user_id, COUNT(*), AVG(total_amount) FROM orders GROUP BY user_id;").errors = true ∧
      (envERR "SELECT user_id, COUNT(*), AVG(total_amount) FROM orders GROUP BY user_id;").duration ≤ 30) ∧
      (("聚合操作", (-1 : ℚ)) ∈ run_test_suite envERR ∧
        (run_test_suite envERR).map Prod.fst = tests.map Prod.fst ∧
        ∀ l r : String, (l, r) ∈ tests →
          (l, run_query (envERR r) 30) ∈ run_test_suite envERR) :=
  ⟨⟨by decide, by decide, by decide⟩,
    runTestSuite_error_sentinel envERR "聚合操作"
      "SELECT user_id, COUNT(*), AVG(total_amount) FROM orders GROUP BY user_id;"
      (by decide) (by decide) (by decide)⟩

/-- C9: the objective value `objective_function` reports back to the
optimizer is the scalar sum of all elapsed/sentinel values in that round's
batch result mapping (`np.sum(list(results.values()))`), every label's value
summed — equivalently the base-suite sum plus the complex-query sample plus
the concurrent aggregate span plus the individual concurrent samples. -/
theorem objective_value_is_batch_sum (clamp : String → String → String)
    (ratStr : ℚ → String) (env : PgState → String → QueryBehavior)
    (span : ℚ) (order : List ℕ) (st : PgState) (p : ℚ × ℚ × ℚ) :
    (objective_function clamp ratStr env span order st p).2.2 =
      ((run_enhanced_test_suite
          (env (objective_function clamp ratStr env span order st p).1)
          span order).map Prod.snd).sum ∧
      (objective_function clamp ratStr env span order st p).2.2 =
        ((run_test_suite
            (env (objective_function clamp ratStr env span order st p).1)).map
          Prod.snd).sum +
          run_complex_query (env (objective_function clamp ratStr env span order st p).1) +
          span +
          ((run_concurrent_queries
              (env (objective_function clamp ratStr env span order st p).1)
              span order).2).sum := by
  refine ⟨rfl, ?_⟩
  exact enhanced_map_snd_sum
    (env (objective_function clamp ratStr env span order st p).1) span order

/-- C10: the enhanced-mode result mapping contains both the concurrent
aggregate wall-clock sample (label 并发查询) and each individual concurrent
sample (labels 并发查询 i), the individual samples being, as a multiset, the
samples of all five concurrent queries; the objective reported by
`objective_function` sums the aggregate span AND every individual sample, so
each concurrent query's cost enters the objective both inside the aggregate
span and individually; and an erroring concurrent probe contributes the -1
sentinel, making the minimized objective strictly smaller than it would be
with any non-negative sample in that slot. -/
theorem enhanced_double_count_sentinel (B : String → QueryBehavior)
    (span s : ℚ) (j : ℕ) (pre post : List ℕ) (order : List ℕ)
    (hord : order = pre ++ j :: post)
    (hperm : order.Perm (List.range 5))
    (herr : (B (queries.getD j "")).errors = true)
    (hdl : (B (queries.getD j "")).duration ≤ 30)
    (hs : 0 ≤ s) :
    ("并发查询", span) ∈ run_enhanced_test_suite B span order ∧
    (∀ x ∈ (run_concurrent_queries B span order).2.enum.map
        (fun q => ("并发查询 " ++ toString (q.1 + 1), q.2)),
      x ∈ run_enhanced_test_suite B span order) ∧
    ((run_enhanced_test_suite B span order).map Prod.snd).sum =
      ((run_test_suite B).map Prod.snd).sum + run_complex_query B + span +
        ((run_concurrent_queries B span order).2).sum ∧
    ((run_concurrent_queries B span order).2).Perm
      ((List.range 5).map (fun i => run_query (B (queries.getD i "")) 30)) ∧
    run_query (B (queries.getD j "")) 30 = -1 ∧
    ((run_enhanced_test_suite B span order).map Prod.snd).sum <
      ((run_test_suite B).map Prod.snd).sum + run_complex_query B + span +
        ((pre.map (fun i => run_query (B (queries.getD i "")) 30)).sum + s +
          (post.map (fun i => run_query (B (queries.getD i "")) 30)).sum) ∧
    ∀ (clamp : String → String → String) (ratStr : ℚ → String)
      (env : PgState → String → QueryBehavior) (st : PgState) (p : ℚ × ℚ × ℚ),
      env (objective_function clamp ratStr env span order st p).1 = B →
      (objective_function clamp ratStr env span order st p).2.2 =
        ((run_enhanced_test_suite B span order).map Prod.snd).sum := by
  have hsent : run_query (B (queries.getD j "")) 30 = -1 :=
    run_query_of_error herr hdl
  refine ⟨?_, ?_, enhanced_map_snd_sum B span order, ?_, hsent, ?_, ?_⟩
  · simp [run_enhanced_test_suite]
    exact Or.inr (Or.inl rfl)
  · intro x hx
    unfold run_enhanced_test_suite
    exact List.mem_append_right _ hx
  · exact List.Perm.map _ hperm
  · rw [enhanced_map_snd_sum B span order]
    have hsum : ((run_concurrent_queries B span order).2).sum =
        (pre.map (fun i => run_query (B (queries.getD i "")) 30)).sum + -1 +
          (post.map (fun i => run_query (B (queries.getD i "")) 30)).sum := by
      rw [show (run_concurrent_queries B span order).2 =
          order.map (fun i => run_query (B (queries.getD i "")) 30) from rfl,
        hord, List.map_append, List.map_cons, List.sum_append, List.sum_cons, hsent]
      ring
    rw [hsum]
    have hlt : (-1 : ℚ) < s := lt_of_lt_of_le (by norm_num) hs
    gcongr
  · intro clamp ratStr env st p henv
    rw [← henv]
    rfl

/-- Witness for C10: with the first concurrent query erroring after 2 seconds
and completion in submission order, the aggregate span 9 is recorded under
并发查询 and the erroring probe is recorded as -1. -/
theorem enhanced_double_count_sentinel_witness :
    orderId = [] ++ 0 :: [1, 2, 3, 4] ∧ orderId.Perm (List.range 5) ∧
      (envCQ0 (queries.getD 0 "")).errors = true ∧
      (envCQ0 (queries.getD 0 "")).duration ≤ 30 ∧ (0 : ℚ) ≤ 7 ∧
      ("并发查询", (9 : ℚ)) ∈ run_enhanced_test_suite envCQ0 9 orderId ∧
      run_query (envCQ0 (queries.getD 0 "")) 30 = -1 := by
  have h := enhanced_double_count_sentinel envCQ0 9 7 0 [] [1, 2, 3, 4] orderId
    rfl (by decide) (by decide) (by decide) (by decide)
  exact ⟨rfl, by decide, by decide, by decide, by decide, h.1, h.2.2.2.2.1⟩

/-- C1 fails on the code: `run_concurrent_queries` collects the futures'
results in COMPLETION order (`as_completed`), and `run_enhanced_test_suite`
labels them by position in that completion-ordered list.  With query 0
running 1 s, query 1 running 2 s, and query 1 completing first
(completion order `orderSwap = [1, 0, 2, 3, 4]`), the label 并发查询 1 holds
query 1's 2-second sample, not query 0's 1-second sample. -/
theorem concurrent_labels_follow_completion_order :
    (run_enhanced_test_suite envC 9 orderSwap).lookup "并发查询 1" = some 2 ∧
      run_query (envC (queries.getD 0 "")) 30 = 1 ∧
      run_query (envC (queries.getD 1 "")) 30 = 2 ∧
      some (2 : ℚ) ≠ some (1 : ℚ) := by decide

/-- C8: on a successful apply-then-read-back, a parameter in `floatParams`
(the cost-ratio style parameters) is compared to the requested value as
floats with the strict 1e-6 tolerance, any other parameter by exact equality
of the canonical string; in both branches the call returns normally
(`raised = none`), a mismatch only adding a warning event to the log; and a
grid round never aborts on account of the verification outcome (it can only
go fatal on the `float()` ValueError for an unparseable value string). -/
theorem setParameterValue_comparison_policy (toFloat : String → Option ℚ)
    (server : PgServer) (name value actual : String)
    (hset : server.setRes name value = Except.ok ())
    (hshow : server.showRes name value = Except.ok actual) :
    (name ∈ floatParams → ∀ sv av : ℚ, toFloat value = some sv →
      toFloat actual = some av →
      set_parameter_value toFloat server name value =
        ⟨none, [LogEvent.paramSet name value,
          if |av - sv| < 1 / 1000000 then LogEvent.verifyOk name actual
          else LogEvent.warnFloat name]⟩) ∧
    (name ∉ floatParams →
      set_parameter_value toFloat server name value =
        ⟨none, if actual = value then [LogEvent.paramSet name value]
          else [LogEvent.paramSet name value, LogEvent.warnExact name]⟩) ∧
    ∀ (tf2 : String → Option ℚ) (clamp : String → String → String)
      (persist : List (Row String String) → Except String Unit)
      (env : PgState → String → QueryBehavior) (span : ℚ) (order : List ℕ)
      (st : PgState) (c : String × String × String),
      (tf2 c.2.2).isSome = true →
      ∀ e, (grid_round tf2 clamp persist env span order st c).2 ≠ RoundOutcome.fatal e := by
  refine ⟨?_, ?_, ?_⟩
  · intro hmem sv av hsv hav
    simp only [set_parameter_value, hset, hshow, hmem, if_pos, hsv, hav]
    split <;> rfl
  · intro hmem
    simp only [set_parameter_value, hset, hshow, if_neg hmem]
    by_cases h : actual = value <;> simp [h]
  · intro tf2 clamp persist env span order st c hsome e
    obtain ⟨q, hq⟩ := Option.isSome_iff_exists.mp hsome
    simp only [grid_round, hq]
    cases persist (save_results
        (run_enhanced_test_suite
          (env (applyParam clamp
            (applyParam clamp (applyParam clamp st "work_mem" c.1)
              "effective_cache_size" c.2.1) "random_page_cost" c.2.2))
          span order) c.1 c.2.1 q) <;> simp

/-- Witness for C8: a float parameter read back 4e-7 away from the requested
value, within the 1e-6 tolerance. -/
theorem setParameterValue_comparison_policy_witness :
    ("random_page_cost" ∈ floatParams ∧
      tfNear "2.0" = some 2 ∧ tfNear "2.0000004" = some (2 + 4 / 10000000)) ∧
      set_parameter_value tfNear serverNear "random_page_cost" "2.0" =
        ⟨none, [LogEvent.paramSet "random_page_cost" "2.0",
          if |(2 + 4 / 10000000 : ℚ) - 2| < 1 / 1000000 then
            LogEvent.verifyOk "random_page_cost" "2.0000004"
          else LogEvent.warnFloat "random_page_cost"]⟩ := by
  refine ⟨⟨by decide, rfl, rfl⟩, ?_⟩
  exact (setParameterValue_comparison_policy tfNear serverNear "random_page_cost"
    "2.0" "2.0000004" rfl rfl).1 (by decide) 2 (2 + 4 / 10000000) rfl rfl

/-- C3 fails on the code: a connection failure during the SET command is
caught by the `except psycopg2.Error` handler, which only prints.  On a dead
connection the apply call returns normally (`raised = none`) and its only
caller-visible result is `None`: no error result reaches the caller. -/
theorem apply_failure_not_surfaced :
    serverDown.setRes "work_mem" "4MB" = Except.error "connection refused" ∧
      (set_parameter_value tfW serverDown "work_mem" "4MB").raised = none ∧
      set_parameter_value tfW serverDown "work_mem" "4MB" =
        ⟨none, [LogEvent.sqlError "work_mem"]⟩ :=
  ⟨rfl, rfl, rfl⟩

/-- C3 amended: a SET/SHOW execution failure terminates that apply call (no
verification is performed), is logged, and the call returns normally with no
error result — the caller cannot observe the failure through the call and
proceeds unconditionally. -/
theorem apply_failure_terminates_and_logs (toFloat : String → Option ℚ)
    (server : PgServer) (name value e : String) :
    (server.setRes name value = Except.error e →
      set_parameter_value toFloat server name value =
        ⟨none, [LogEvent.sqlError name]⟩) ∧
    (server.setRes name value = Except.ok () →
      server.showRes name value = Except.error e →
      set_parameter_value toFloat server name value =
        ⟨none, [LogEvent.paramSet name value, LogEvent.sqlError name]⟩) := by
  constructor
  · intro h
    simp [set_parameter_value, h]
  · intro h1 h2
    simp [set_parameter_value, h1, h2]

/-- Witness for the amended C3 at a concrete dead connection. -/
theorem apply_failure_terminates_and_logs_witness :
    serverDown.setRes "effective_cache_size" "100MB" =
        Except.error "connection refused" ∧
      set_parameter_value tfW serverDown "effective_cache_size" "100MB" =
        ⟨none, [LogEvent.sqlError "effective_cache_size"]⟩ :=
  ⟨rfl, (apply_failure_terminates_and_logs tfW serverDown "effective_cache_size"
    "100MB" "connection refused").1 rfl⟩

/-- C2 fails on the code: the optimizer round applies
`work_mem = f"{int(7.5)}MB"`, i.e. 7MB, but `save_results` receives the raw
candidate 7.5, so the persisted work_mem (read back the way the repository's
own analysis script reads it) differs from the configuration active while
the batch ran. -/
theorem persisted_params_differ_from_active :
    (objective_function clampExact ratStrW envConst 9 orderId stInit
        (15 / 2, 300, 2)).1.work_mem = "7MB" ∧
      mbValue "7MB" = some 7 ∧
      ((objective_function clampExact ratStrW envConst 9 orderId stInit
          (15 / 2, 300, 2)).2.1.head?.map (fun r => r.work_mem)) = some (15 / 2) ∧
      some ((15 : ℚ) / 2) ≠ some (7 : ℚ) := by
  have hfloor : pyInt ((15 : ℚ) / 2) = 7 := by
    rw [pyInt, if_pos (by norm_num)]
    norm_num [Int.floor_eq_iff]
  refine ⟨?_, by decide, rfl, by norm_num⟩
  show mbString ((15 : ℚ) / 2) = "7MB"
  rw [mbString, hfloor]
  decide

/-- C2 amended: each persisted row of an optimizer round stores the raw
candidate values handed to `save_results` (not the verified-active ones),
its execution time being the corresponding batch sample; and the three
applies complete strictly before the batch, which runs under the post-apply
state.  In grid mode likewise, a round with a parseable cost value and a
healthy store persists the grid's requested strings together with the batch
samples taken under the post-apply state. -/
theorem persisted_rows_store_requested_values
    (clamp : String → String → String) (ratStr : ℚ → String)
    (env : PgState → String → QueryBehavior) (span : ℚ) (order : List ℕ)
    (st : PgState) (p : ℚ × ℚ × ℚ) :
    (objective_function clamp ratStr env span order st p).2.1 =
      (run_enhanced_test_suite
          (env (objective_function clamp ratStr env span order st p).1) span
          order).map (fun t => ⟨p.1, p.2.1, p.2.2, t.2, t.1⟩) ∧
    (objective_function clamp ratStr env span order st p).1 =
      applyParam clamp
        (applyParam clamp (applyParam clamp st "work_mem" (mbString p.1))
          "effective_cache_size" (mbString p.2.1))
        "random_page_cost" (ratStr p.2.2) ∧
    ∀ (toFloat : String → Option ℚ)
      (persist : List (Row String String) → Except String Unit)
      (c : String × String × String) (q : ℚ),
      toFloat c.2.2 = some q →
      persist (save_results
          (run_enhanced_test_suite
            (env (applyParam clamp
              (applyParam clamp (applyParam clamp st "work_mem" c.1)
                "effective_cache_size" c.2.1) "random_page_cost" c.2.2))
            span order) c.1 c.2.1 q) = Except.ok () →
      (grid_round toFloat clamp persist env span order st c).2 =
        RoundOutcome.ok
          ((run_enhanced_test_suite
              (env (applyParam clamp
                (applyParam clamp (applyParam clamp st "work_mem" c.1)
                  "effective_cache_size" c.2.1) "random_page_cost" c.2.2))
              span order).map (fun t => ⟨c.1, c.2.1, q, t.2, t.1⟩)) := by
  refine ⟨rfl, rfl, ?_⟩
  intro toFloat persist c q hq hper
  simp only [grid_round, hq, hper]
  rfl

/-- Witness for the amended C2 at a concrete grid round. -/
theorem persisted_rows_store_requested_values_witness :
    tfW "2.0" = some 2 ∧
      (grid_round tfW clampExact persistOk envConst 9 orderId stInit
          ("4MB", "100MB", "2.0")).2 =
        RoundOutcome.ok
          ((run_enhanced_test_suite (envConst stInit) 9 orderId).map
            (fun t => ⟨"4MB", "100MB", 2, t.2, t.1⟩)) :=
  ⟨rfl, (persisted_rows_store_requested_values clampExact ratStrW envConst 9
      orderId stInit (8, 200, 2)).2.2 tfW persistOk ("4MB", "100MB", "2.0") 2
    rfl rfl⟩

/-- C6: grid mode precomputes the Cartesian product of the supplied value
lists and runs exactly one round per combination: the sequence of visited
parameter triples IS the Cartesian product in lexicographic order over the
input list order, its length is the product of the list lengths, and (for
duplicate-free value lists) every combination is visited exactly once.  The
hypothesis asks that every supplied random_page_cost string parses as a
float, since an unparseable one would raise a ValueError outside the
round-level handler. -/
theorem grid_visits_cartesian_product (toFloat : String → Option ℚ)
    (clamp : String → String → String)
    (persist : List (Row String String) → Except String Unit)
    (env : PgState → String → QueryBehavior) (span : ℚ) (order : List ℕ)
    (st0 : PgState) (pv : ParameterValues)
    (hf : ∀ c ∈ combinations pv, (toFloat c.2.2).isSome = true) :
    (run_multi_parameter_tests toFloat clamp persist env span order st0 pv).map
        Prod.fst = combinations pv ∧
      (run_multi_parameter_tests toFloat clamp persist env span order st0 pv).length =
        pv.work_mem.length * (pv.effective_cache_size.length * pv.random_page_cost.length) ∧
      combinations pv =
        pv.work_mem ×ˢ pv.effective_cache_size ×ˢ pv.random_page_cost ∧
      (pv.work_mem.Nodup → pv.effective_cache_size.Nodup →
        pv.random_page_cost.Nodup → (combinations pv).Nodup) ∧
      ∀ w e r : String, (w, e, r) ∈ combinations pv ↔
        (w ∈ pv.work_mem ∧ e ∈ pv.effective_cache_size ∧ r ∈ pv.random_page_cost) := by
  have hmap : (run_multi_parameter_tests toFloat clamp persist env span order st0 pv).map
      Prod.fst = combinations pv :=
    grid_rounds_map_fst toFloat clamp persist env span order (combinations pv) st0 hf
  have hprod : combinations pv =
      pv.work_mem ×ˢ pv.effective_cache_size ×ˢ pv.random_page_cost := by
    simp only [combinations, SProd.sprod, List.product, List.map_flatMap, List.map_map]
    rfl
  refine ⟨hmap, ?_, hprod, ?_, ?_⟩
  · have hlen := congrArg List.length hmap
    rw [List.length_map] at hlen
    rw [hlen, hprod, List.length_product, List.length_product]
  · intro h1 h2 h3
    rw [hprod]
    exact h1.product (h2.product h3)
  · intro w e r
    rw [hprod]
    simp [SProd.sprod, List.pair_mem_product]

/-- Witness for C6 at the module's own `__main__` parameter grid: 3 * (2 * 2)
combinations, visited as the lexicographic Cartesian product. -/
theorem grid_visits_cartesian_product_witness :
    (∀ c ∈ combinations pvMain, (tfW c.2.2).isSome = true) ∧
      ((run_multi_parameter_tests tfW clampExact persistOk envConst 9 orderId
          stInit pvMain).map Prod.fst = combinations pvMain ∧
        (run_multi_parameter_tests tfW clampExact persistOk envConst 9 orderId
            stInit pvMain).length =
          pvMain.work_mem.length *
            (pvMain.effective_cache_size.length * pvMain.random_page_cost.length) ∧
        combinations pvMain =
          pvMain.work_mem ×ˢ pvMain.effective_cache_size ×ˢ pvMain.random_page_cost ∧
        (pvMain.work_mem.Nodup → pvMain.effective_cache_size.Nodup →
          pvMain.random_page_cost.Nodup → (combinations pvMain).Nodup) ∧
        ∀ w e r : String, (w, e, r) ∈ combinations pvMain ↔
          (w ∈ pvMain.work_mem ∧ e ∈ pvMain.effective_cache_size ∧
            r ∈ pvMain.random_page_cost)) :=
  ⟨by decide, grid_visits_cartesian_product tfW clampExact persistOk envConst 9
    orderId stInit pvMain (by decide)⟩

/-- C7 fails on the code in optimizer mode: `objective_function` has no
exception handler, so a persistence failure in the first round propagates
out of the optimization; with two candidate rounds and a failing store, the
second round is never executed. -/
theorem bayes_round_failure_aborts_run :
    (bayes_run clampExact ratStrW persistFail envConst 9 orderId stInit
        [(8, 200, 2), (16, 300, 3)]).map Prod.fst = [(8, 200, 2)] ∧
      ((16 : ℚ), (300 : ℚ), (3 : ℚ)) ∉
        (bayes_run clampExact ratStrW persistFail envConst 9 orderId stInit
            [(8, 200, 2), (16, 300, 3)]).map Prod.fst := by
  have h1 : (bayes_run clampExact ratStrW persistFail envConst 9 orderId stInit
      [(8, 200, 2), (16, 300, 3)]).map Prod.fst = [(8, 200, 2)] := rfl
  refine ⟨h1, ?_⟩
  rw [h1]
  decide

/-- C7 amended: in grid mode a per-round batch/persistence failure is caught
at the round boundary and the harness still visits every later combination
(for any persistence behaviour whatsoever); configuration-apply SQL errors
are swallowed inside the apply call in both modes; but in optimizer mode a
persistence failure propagates out of the objective evaluation and
terminates the run at that round. -/
theorem round_failures_grid_caught_bayes_fatal (toFloat : String → Option ℚ)
    (clamp : String → String → String)
    (env : PgState → String → QueryBehavior) (span : ℚ) (order : List ℕ)
    (st0 : PgState) (pv : ParameterValues)
    (hf : ∀ c ∈ combinations pv, (toFloat c.2.2).isSome = true) :
    (∀ persist : List (Row String String) → Except String Unit,
      (run_multi_parameter_tests toFloat clamp persist env span order st0 pv).map
        Prod.fst = combinations pv) ∧
    ∀ (ratStr : ℚ → String) (persist : List (Row ℚ ℚ) → Except String Unit)
      (st : PgState) (p : ℚ × ℚ × ℚ) (ps : List (ℚ × ℚ × ℚ)) (e : String),
      persist (objective_function clamp ratStr env span order st p).2.1 =
        Except.error e →
      bayes_run clamp ratStr persist env span order st (p :: ps) =
        [(p, Except.error e)] := by
  constructor
  · intro persist
    exact grid_rounds_map_fst toFloat clamp persist env span order
      (combinations pv) st0 hf
  · intro ratStr persist st p ps e hp
    simp only [bayes_run, hp]

/-- Witness for the amended C7: a failing SQLite store ends a one-candidate
optimizer run at that candidate, while the grid loop covers all of `pvMain`
even with the same failing store. -/
theorem round_failures_grid_caught_bayes_fatal_witness :
    (∀ c ∈ combinations pvMain, (tfW c.2.2).isSome = true) ∧
      (run_multi_parameter_tests tfW clampExact persistFail envConst 9 orderId
          stInit pvMain).map Prod.fst = combinations pvMain ∧
      bayes_run clampExact ratStrW persistFail envConst 9 orderId stInit
          [(8, 200, 2)] =
        [((8, 200, 2), Except.error "sqlite3.OperationalError")] := by
  have h := round_failures_grid_caught_bayes_fatal tfW clampExact envConst 9
    orderId stInit pvMain (by decide)
  exact ⟨by decide, h.1 persistFail,
    h.2 ratStrW persistFail stInit (8, 200, 2) [] "sqlite3.OperationalError" rfl⟩

end OctoTune
